import Mathlib

/-!
Shallow embedding of the IVF-PQ index build pipeline bindings of the lance
repository (`src/python/src/indices.rs`), together with models of the
pipeline stages those bindings call into (which live elsewhere in the
repository), and proofs of the specification's claims about them.

Conventions of the embedding:
* vectors are `List ℚ` (rationals stand in for the floating point
  components; no claim here depends on rounding);
* Rust effects (the object store, the in-memory writer) are explicit
  state passing over pure values;
* Rust `async` calls are lazy: calling an async function only builds a
  future, and `.await` executes it.  A future that is dropped without
  being awaited has no effect, which we embed by not threading the
  state through the dropped call;
* fallible Rust code returns `Except LanceError`, and a Python-facing
  entry point returns `PyOutcome`, which also distinguishes a Rust
  panic (surfaced to Python as a `PanicException`) from a typed error.
-/

/-- Error kinds of the pipeline, following the spec's error-handling design
(ConfigError, DimensionMismatch, TrainingError, IoError). -/
inductive LanceError where
  | config (msg : String)
  | dimensionMismatch
  | training (msg : String)
  | ioError
  deriving DecidableEq, Repr

/-- Outcome of a Python-facing entry point: a value, a typed error raised to
the caller, or a Rust panic (which pyo3 surfaces as a `PanicException`,
i.e. a crash rather than a typed result). -/
inductive PyOutcome (α : Type) where
  | ok (a : α)
  | raised (e : LanceError)
  | panicked (msg : String)
  deriving DecidableEq, Repr

/-- The distance metrics of the pipeline.  Modelled from the spec:
"DistanceType: enumerated metric — e.g., Euclidean, Cosine, Dot, Hamming". -/
inductive DistanceType where
  | l2
  | cosine
  | dot
  | hamming
  deriving DecidableEq, Repr

/-- Modelled from the spec: `distance_type` is an enumerated string at the
boundary (e.g. "l2", "cosine", "dot") parsed once per call; an unrecognized
value fails to parse.  This models `DistanceType::try_from(&str)` from
`lance_linalg::distance`, which is part of the repository but not under the
bindings file. -/
def DistanceType.tryFrom : String → Option DistanceType
  | "l2" => some .l2
  | "euclidean" => some .l2
  | "cosine" => some .cosine
  | "dot" => some .dot
  | "hamming" => some .hamming
  | _ => none

/-- Dot product of two vectors. -/
def dotProd (a b : List ℚ) : ℚ := (List.zipWith (· * ·) a b).sum

/-- Squared Euclidean distance (order-equivalent to Euclidean distance,
which is what nearest-centroid search needs). -/
def l2sq (a b : List ℚ) : ℚ := (List.zipWith (fun x y => (x - y) ^ 2) a b).sum

/-- Modelled from the spec: the metric determines the assignment step's
nearest-centroid search.  Cosine distance is represented by a rational
surrogate (`1 - dot²/(‖a‖²‖b‖²)`) since exact cosine needs square roots;
no claim proved here depends on the cosine formula itself. -/
def DistanceType.dist : DistanceType → List ℚ → List ℚ → ℚ
  | .l2, a, b => l2sq a b
  | .cosine, a, b => 1 - dotProd a b * dotProd a b / (dotProd a a * dotProd b b)
  | .dot, a, b => - dotProd a b
  | .hamming, a, b => (List.zipWith (fun x y => if x = y then (0 : ℚ) else 1) a b).sum

/-- Index of the minimum element (first index on ties), accumulator form. -/
def argminAux : List ℚ → Nat → Nat → ℚ → Nat
  | [], _, best, _ => best
  | x :: xs, i, best, bv =>
    if x < bv then argminAux xs (i + 1) i x else argminAux xs (i + 1) best bv

/-- Index of the minimum element of a list of distances (0 for the empty
list; first index on ties). -/
def argminIdx : List ℚ → Nat
  | [] => 0
  | x :: xs => argminAux xs 1 0 x

/-- Modelled from the spec: each vector is assigned to the index of its
nearest centroid under the chosen metric; that index is the partition id. -/
def nearestPartition (dt : DistanceType) (cents : List (List ℚ)) (v : List ℚ) : Nat :=
  argminIdx (cents.map (fun c => dt.dist v c))

/-- The all-zero vector of dimension `D`. -/
def vecZero (D : Nat) : List ℚ := List.replicate D 0

/-- Componentwise vector addition. -/
def vecAdd (a b : List ℚ) : List ℚ := List.zipWith (· + ·) a b

/-- Mean of a cluster of vectors of dimension `D` (componentwise). -/
def centroidMean (D : Nat) (vs : List (List ℚ)) : List ℚ :=
  (vs.foldl vecAdd (vecZero D)).map (· / (vs.length : ℚ))

/-- Modelled from the spec: one Lloyd iteration.  Each cluster's new
centroid is the mean of the sample points assigned to it; a cluster that
receives no point keeps its previous centroid during iteration (the
degenerate-cluster check happens after convergence). -/
def lloydStep (dt : DistanceType) (D : Nat) (points cents : List (List ℚ)) :
    List (List ℚ) :=
  (List.range cents.length).map fun i =>
    let members := points.filter (fun p => nearestPartition dt cents p == i)
    if members.isEmpty then cents.getD i (vecZero D) else centroidMean D members

/-- Modelled from the spec: run Lloyd's algorithm for up to `max_iters`
iterations or until the centroids stop moving. -/
def kmeansIter (dt : DistanceType) (D : Nat) (points : List (List ℚ)) :
    Nat → List (List ℚ) → List (List ℚ)
  | 0, cents => cents
  | n + 1, cents =>
    let cents' := lloydStep dt D points cents
    if cents' = cents then cents else kmeansIter dt D points n cents'

/-- The IVF model: coarse centroids plus the per-partition byte offsets and
record counts that the final merge stage fills in (empty until then).
Mirrors `lance_index::vector::ivf::storage::IvfModel`. -/
structure IvfModel where
  centroids : Option (List (List ℚ))
  offsets : List Nat
  lengths : List Nat
  deriving DecidableEq, Repr

/-- Modelled from the spec: the dimension of the model is the dimension of
its centroids (0 if there are none). -/
def IvfModel.dimension : IvfModel → Nat
  | ⟨some (c :: _), _, _⟩ => c.length
  | _ => 0

/-- IVF build parameters as constructed in `do_train_ivf_model`. -/
structure IvfBuildParams where
  max_iters : Nat
  sample_rate : Nat
  num_partitions : Nat
  deriving DecidableEq, Repr

/-- The facets of the host dataset that the pipeline consumes: the target
column's vectors (one per row), the dataset version, and the directory in
which index artifacts are created. -/
structure Dataset where
  rows : List (List ℚ)
  version : Nat
  indicesDir : String
  deriving DecidableEq, Repr

/-- Modelled from the spec: `build_ivf_model` (in `lance::index::vector::ivf`,
part of the repository but not under the bindings file) draws a bounded
sample of about `sample_rate × num_partitions` rows, fails with a
DimensionMismatch error if a row disagrees with the declared dimension,
fails with a TrainingError if the sample is smaller than the partition
count, runs k-means, and fails with a TrainingError if any centroid ends
with an empty cluster.  Initialisation from the first `P` sample points is
a deterministic stand-in for the implementation's random seeding. -/
def build_ivf_model (ds : Dataset) (dimension : Nat) (dt : DistanceType)
    (params : IvfBuildParams) : Except LanceError IvfModel :=
  if ds.rows.any (fun r => r.length ≠ dimension) then
    .error .dimensionMismatch
  else
    let sample := ds.rows.take (params.sample_rate * params.num_partitions)
    if sample.length < params.num_partitions then
      .error (.training "not enough samples to train the requested partitions")
    else
      let cents := kmeansIter dt dimension sample params.max_iters
        (sample.take params.num_partitions)
      if (List.range cents.length).any
          (fun i => (sample.filter (fun p => nearestPartition dt cents p == i)).isEmpty) then
        .error (.training "kmeans produced an empty cluster")
      else
        .ok ⟨some cents, [], []⟩

/-- Embedding of `do_train_ivf_model` composed with its `train_ivf_model`
pyfunction wrapper (`src/python/src/indices.rs` lines 28-83).  The wrapper
passes the raw `distance_type` string through; `do_train_ivf_model` starts
with `DistanceType::try_from(distance_type).unwrap()`, so an unparsable
string panics.  On success it returns the trained model's centroids
(`ivf_model.centroids.unwrap()`). -/
def train_ivf_model (ds : Dataset) (dimension : Nat) (num_partitions : Nat)
    (distance_type : String) (sample_rate : Nat) (max_iters : Nat) :
    PyOutcome (List (List ℚ)) :=
  match DistanceType.tryFrom distance_type with
  | none => .panicked "called Result::unwrap() on an Err value"
  | some dt =>
    let params : IvfBuildParams :=
      ⟨max_iters, sample_rate, num_partitions⟩
    match build_ivf_model ds dimension dt params with
    | .error e => .raised e
    | .ok ivf_model =>
      match ivf_model.centroids with
      | none => .panicked "called Option::unwrap() on a None value"
      | some centroids => .ok centroids

/-- The product quantizer: `M` subvectors, `num_bits` bits per code, the
vector dimension, the trained codebook (here a flat list of sub-centroid
vectors, `2^num_bits` per subvector slot), and the distance metric.
Mirrors `lance_index::vector::pq::ProductQuantizer`. -/
structure ProductQuantizer where
  num_sub_vectors : Nat
  num_bits : Nat
  dimension : Nat
  codebook : List (List ℚ)
  distance_type : DistanceType
  deriving DecidableEq, Repr

/-- Modelled from the spec: `ProductQuantizer::new` (part of the repository
but not under the bindings file) stores the given fields unchanged. -/
def ProductQuantizer.new (num_sub_vectors num_bits dimension : Nat)
    (codebook : List (List ℚ)) (distance_type : DistanceType) : ProductQuantizer :=
  ⟨num_sub_vectors, num_bits, dimension, codebook, distance_type⟩

/-- Modelled from the spec: "codebook sub-centroid count is always
`2^num_bits`" — the number of sub-centroids a quantizer's codebook holds
per subvector slot. -/
def ProductQuantizer.subCentroidsPerSlot (pq : ProductQuantizer) : Nat :=
  2 ^ pq.num_bits

/-- PQ build parameters as constructed in `do_train_pq_model`
(`src/python/src/indices.rs` lines 98-104): `num_bits` is the literal 8. -/
structure PQBuildParams where
  num_sub_vectors : Nat
  num_bits : Nat
  max_iters : Nat
  sample_rate : Nat
  deriving DecidableEq, Repr

/-- The `PQBuildParams` value built by `do_train_pq_model`. -/
def trainPqParams (num_subvectors max_iters sample_rate : Nat) : PQBuildParams :=
  ⟨num_subvectors, 8, max_iters, sample_rate⟩

/-- Modelled from the spec: the residual of a vector is the vector minus its
assigned coarse centroid. -/
def residualOf (dt : DistanceType) (cents : List (List ℚ)) (v : List ℚ) : List ℚ :=
  List.zipWith (· - ·) v (cents.getD (nearestPartition dt cents v) (vecZero v.length))

/-- Modelled from the spec: if an IvfModel is supplied, PQ training operates
on residuals (vector minus its assigned coarse centroid); if absent, it
operates on the raw vectors. -/
def pqTrainingVectors (dt : DistanceType) (rows : List (List ℚ)) :
    Option IvfModel → List (List ℚ)
  | some m => rows.map (residualOf dt (m.centroids.getD []))
  | none => rows

/-- Modelled from the spec: per-subvector-slot k-means producing `K`
sub-centroids of dimension `subDim` (initialised from the first `K`
training subvectors, padded with zero vectors when there are fewer — a
deterministic stand-in for random seeding). -/
def kmeansCodebook (dt : DistanceType) (subDim K max_iters : Nat)
    (subs : List (List ℚ)) : List (List ℚ) :=
  kmeansIter dt subDim subs max_iters
    ((subs ++ List.replicate K (vecZero subDim)).take K)

/-- Modelled from the spec: `build_pq_model` (in `lance::index::vector::pq`,
part of the repository but not under the bindings file) fails with a
ConfigError when the dimension is not divisible by the subvector count,
samples training rows, takes residuals exactly when an IvfModel is
supplied, splits each training vector into `M` contiguous subvectors, runs
k-means independently per slot producing `2^num_bits` sub-centroids per
slot, and returns the quantizer with the concatenated codebook. -/
def build_pq_model (ds : Dataset) (dimension : Nat) (dt : DistanceType)
    (params : PQBuildParams) (ivf : Option IvfModel) :
    Except LanceError ProductQuantizer :=
  if params.num_sub_vectors = 0 ∨ dimension % params.num_sub_vectors ≠ 0 then
    .error (.config "dimension is not divisible by num_sub_vectors")
  else
    let sample := ds.rows.take (params.sample_rate * 2 ^ params.num_bits)
    let train := pqTrainingVectors dt sample ivf
    let subDim := dimension / params.num_sub_vectors
    let codebook :=
      ((List.range params.num_sub_vectors).map fun s =>
        kmeansCodebook dt subDim (2 ^ params.num_bits) params.max_iters
          (train.map fun v => (v.drop (s * subDim)).take subDim)).flatten
    .ok (ProductQuantizer.new params.num_sub_vectors params.num_bits dimension
      codebook dt)

/-- Embedding of `do_train_pq_model` (`src/python/src/indices.rs` lines
86-116): parses the distance string with `.unwrap()` (panicking on an
unrecognized value), builds `PQBuildParams` with `num_bits: 8`, and calls
`build_pq_model` with `Some(&ivf_model)` — the IvfModel argument is always
present.  Returns the trained quantizer's codebook. -/
def do_train_pq_model (ds : Dataset) (dimension : Nat) (num_subvectors : Nat)
    (distance_type : String) (sample_rate : Nat) (max_iters : Nat)
    (ivf_model : IvfModel) : PyOutcome (List (List ℚ)) :=
  match DistanceType.tryFrom distance_type with
  | none => .panicked "called Result::unwrap() on an Err value"
  | some dt =>
    match build_pq_model ds dimension dt
        (trainPqParams num_subvectors max_iters sample_rate) (some ivf_model) with
    | .error e => .raised e
    | .ok pq_model => .ok pq_model.codebook

/-- Embedding of the `train_pq_model` pyfunction (`src/python/src/indices.rs`
lines 118-152): wraps the caller-supplied centroids into an IvfModel with
empty offsets/lengths and delegates to `do_train_pq_model`. -/
def train_pq_model (ds : Dataset) (dimension : Nat) (num_subvectors : Nat)
    (distance_type : String) (sample_rate : Nat) (max_iters : Nat)
    (ivf_centroids : List (List ℚ)) : PyOutcome (List (List ℚ)) :=
  do_train_pq_model ds dimension num_subvectors distance_type sample_rate
    max_iters ⟨some ivf_centroids, [], []⟩

/-- One transformed vector: the stable row id, the assigned partition, and
the `M`-byte PQ code. -/
structure TransformedRecord where
  row_id : Nat
  partition_id : Nat
  code : List Nat
  deriving DecidableEq, Repr

/-- The file system / object store visible to the pipeline: an association
of full paths to the transformed records stored in each file.  Reads see
the most recently created file of a given name first. -/
abbrev FS : Type := List (String × List TransformedRecord)

/-- Read a file from the store (first match wins, so re-creating a file
shadows the old content, like `create` truncating). -/
def FS.read (fs : FS) (name : String) : Option (List TransformedRecord) :=
  (fs.find? (fun e => e.1 == name)).map (·.2)

/-- A file name resolved relative to a directory. -/
def childPath (dir name : String) : String := dir ++ "/" ++ name

/-- Modelled from the spec: a per-partition shuffle output is named by the
caller-supplied root plus a partition suffix. -/
def partitionFileName (root : String) (k : Nat) : String :=
  root ++ "_" ++ toString k

/-- Modelled from the spec: PQ encoding of one vector — per subvector slot,
the index of the nearest of that slot's `2^num_bits` sub-centroids, one
byte per slot. -/
def pqEncode (pq : ProductQuantizer) (v : List ℚ) : List Nat :=
  let subDim := pq.dimension / pq.num_sub_vectors
  let K := 2 ^ pq.num_bits
  (List.range pq.num_sub_vectors).map fun s =>
    argminIdx (((pq.codebook.drop (s * K)).take K).map
      (fun c => pq.distance_type.dist ((v.drop (s * subDim)).take subDim) c))

/-- Modelled from the spec: `write_vector_storage` (in
`lance::index::vector::ivf::builder`, part of the repository but not under
the bindings file) streams the scanned rows and writes one
`TransformedRecord` per row — its nearest IVF partition and its PQ code —
to the destination file. -/
def write_vector_storage (rows : List (List ℚ)) (ivf_centroids : List (List ℚ))
    (pq : ProductQuantizer) (dt : DistanceType) : List TransformedRecord :=
  rows.mapIdx fun i v =>
    ⟨i, nearestPartition dt ivf_centroids v, pqEncode pq v⟩

/-- The `ProductQuantizer::new` call made by the `transform_vectors`
pyfunction (`src/python/src/indices.rs` lines 212-218): `num_bits` is the
literal 8. -/
def transform_vectors_pq (num_subvectors dimension : Nat)
    (codebook : List (List ℚ)) (dt : DistanceType) : ProductQuantizer :=
  ProductQuantizer.new num_subvectors 8 dimension codebook dt

/-- Embedding of the `transform_vectors` pyfunction together with
`do_transform_vectors` (`src/python/src/indices.rs` lines 154-231): parses
the distance string with `.unwrap()` (panicking on an unrecognized value),
builds the quantizer with `num_bits = 8`, and writes the unsorted
transform-output file at `dst_uri`.  The returned store is the effect on
the destination; the Rust function itself returns unit. -/
def transform_vectors (fs : FS) (ds : Dataset) (num_subvectors dimension : Nat)
    (distance_type : String) (ivf_centroids : List (List ℚ))
    (pq_codebook : List (List ℚ)) (dst_uri : String) : PyOutcome FS :=
  match DistanceType.tryFrom distance_type with
  | none => .panicked "called Result::unwrap() on an Err value"
  | some dt =>
    let pq := transform_vectors_pq num_subvectors dimension pq_codebook dt
    .ok ((dst_uri, write_vector_storage ds.rows ivf_centroids pq dt) :: fs)

/-- The records of partition `k` among a stream of transformed records, in
stream order. -/
def partitionBucket (records : List TransformedRecord) (k : Nat) :
    List TransformedRecord :=
  records.filter fun r => r.partition_id == k

/-- Read each named input file from the directory. -/
def readInputFiles (fs : FS) (dir_path : String) (names : List String) :
    Except LanceError (List (List TransformedRecord)) :=
  names.mapM fun n =>
    match FS.read fs (childPath dir_path n) with
    | some recs => .ok recs
    | none => .error .ioError

/-- Modelled from the spec: `shuffle_vectors` (in
`lance_index::vector::ivf::shuffler`, part of the repository but not under
the bindings file) is an external bucket sort.  It streams each unsorted
input file in order, appends every record to the output file of its
`partition_id` (the centroids supply the partition count `P`), creates the
`P` per-partition files under the working directory, and returns the list
of produced file names. -/
def shuffle_vectors (fs : FS) (unsorted_filenames : List String)
    (dir_path : String) (ivf_centroids : List (List ℚ))
    (shuffle_output_root_filename : String) :
    Except LanceError (List String × FS) :=
  match readInputFiles fs dir_path unsorted_filenames with
  | .error e => .error e
  | .ok inputs =>
    let P := ivf_centroids.length
    let names := (List.range P).map (partitionFileName shuffle_output_root_filename)
    let outputs := (List.range P).map fun k =>
      (childPath dir_path (partitionFileName shuffle_output_root_filename k),
       partitionBucket inputs.flatten k)
    .ok (names, outputs ++ fs)

/-- Embedding of the `shuffle_transformed_vectors` pyfunction together with
`do_shuffle_transformed_vectors` (`src/python/src/indices.rs` lines
233-269): runs the shuffle and returns the produced per-partition file
names to the caller (as a Python list); an error is surfaced as a raised
exception. -/
def shuffle_transformed_vectors (fs : FS) (unsorted_filenames : List String)
    (dir_path : String) (ivf_centroids : List (List ℚ))
    (shuffle_output_root_filename : String) : PyOutcome (List String × FS) :=
  match shuffle_vectors fs unsorted_filenames dir_path ivf_centroids
      shuffle_output_root_filename with
  | .ok r => .ok r
  | .error e => .raised e

/-- The per-build metadata block of the index, as assembled by
`IvfPQIndexMetadata::new` (`src/python/src/indices.rs` lines 288-297): the
index name/kind tag, the target column, the vector dimension, the source
dataset's version, the distance type, the IvfModel, the ProductQuantizer,
and the (empty) transform list passed as the last argument. -/
structure IvfPQIndexMetadata where
  name : String
  column : String
  dimension : Nat
  dataset_version : Nat
  distance_type : DistanceType
  ivf : IvfModel
  pq : ProductQuantizer
  transforms : List Unit
  deriving DecidableEq, Repr

/-- `IvfPQIndexMetadata::new` stores its arguments (the constructor is part
of the repository but not under the bindings file; modelled from the spec's
description of the metadata block's contents). -/
def IvfPQIndexMetadata.new (name column : String) (dimension dataset_version : Nat)
    (distance_type : DistanceType) (ivf : IvfModel) (pq : ProductQuantizer)
    (transforms : List Unit) : IvfPQIndexMetadata :=
  ⟨name, column, dimension, dataset_version, distance_type, ivf, pq, transforms⟩

/-- The serialized protobuf form of the metadata.  Modelled from the spec:
the metadata block is a structured, schema'd record; its encoding is not
part of the bindings file, so we keep the message abstract and faithful. -/
abbrev IndexMessage : Type := IvfPQIndexMetadata

/-- Modelled from the spec: `Index::try_from(&IvfPQIndexMetadata)` converts
the metadata into its protobuf message. -/
def IndexMessage.tryFrom (m : IvfPQIndexMetadata) : Except LanceError IndexMessage :=
  .ok m

/-- One positioned unit of the final index file: a byte of partition code
data, the serialized metadata block, or the fixed trailer.  The file is the
list of these units; "byte position" in the model is the index in this
list. -/
inductive FileToken where
  | codeByte (b : Nat)
  | metadataBlock (m : IndexMessage)
  | trailer (metadataPos : Nat) (major : Nat) (minor : Nat) (magic : List Nat)
  deriving DecidableEq, Repr

/-- The writer over the destination object: the sequence of units written
so far. -/
abbrev IdxWriter : Type := List FileToken

/-- Modelled from the spec: the fixed magic constant of the index file
format (`lance_file::format::MAGIC`, ASCII "LANC"). -/
def MAGIC : List Nat := [76, 65, 78, 67]

/-- Modelled from the spec: `writer.write_protobuf(msg)` appends the
serialized metadata block and returns the position at which it was
written. -/
def IdxWriter.write_protobuf (w : IdxWriter) (m : IndexMessage) : IdxWriter × Nat :=
  (w ++ [.metadataBlock m], w.length)

/-- Modelled from the spec: `writer.write_magics(pos, major, minor, magic)`
appends the fixed-format trailer recording the metadata block's position,
the version/flavor pair, and the magic constant. -/
def IdxWriter.write_magics (w : IdxWriter) (pos major minor : Nat) (magic : List Nat) :
    IdxWriter :=
  w ++ [.trailer pos major minor magic]

/-- A reader's first step: look only at the end of the file and decode the
trailer's fields `(metadata position, major, minor, magic)`. -/
def readTrailer (file : List FileToken) : Option (Nat × Nat × Nat × List Nat) :=
  match file.getLast? with
  | some (.trailer pos major minor magic) => some (pos, major, minor, magic)
  | _ => none

/-- A reader's second step: seek to the position recorded in the trailer and
parse the metadata block found there — no scan of the rest of the file. -/
def readMetadata (file : List FileToken) : Option IndexMessage :=
  match readTrailer file with
  | some (pos, _, _, _) =>
    match file.getD pos (.codeByte 0) with
    | .metadataBlock m => some m
    | _ => none
  | none => none

/-- Modelled from the spec: `load_partitioned_shuffles` (in
`lance_index::vector::ivf::shuffler`, part of the repository but not under
the bindings file) opens each named shuffle file under the given directory
and returns one record stream per file, failing with an I/O error if a
file is missing. -/
def load_partitioned_shuffles (fs : FS) (dir_path : String)
    (filenames : List String) : Except LanceError (List (List TransformedRecord)) :=
  readInputFiles fs dir_path filenames

/-- Modelled from the spec: the body of the async function
`write_pq_partitions` (in `lance::index::vector::ivf::io`, part of the
repository but not under the bindings file).  When executed (awaited), it
processes the per-partition streams strictly in order, appends each
partition's codes contiguously to the writer, and records
`(offset_at_start, record_count)` into the model at that partition's slot.
In the bindings the returned future is dropped without being awaited, so
this body never runs there. -/
def write_pq_partitions (w : IdxWriter) (ivf : IvfModel)
    (streams : Option (List (List TransformedRecord))) (_existing : Option Unit) :
    IdxWriter × IvfModel :=
  match streams with
  | none => (w, ivf)
  | some ss =>
    ss.foldl
      (fun acc part =>
        (acc.1 ++ (part.map (fun r => r.code)).flatten.map FileToken.codeByte,
         ⟨acc.2.centroids,
          acc.2.offsets ++ [acc.1.length],
          acc.2.lengths ++ [part.length]⟩))
      (w, ivf)

/-- The sealed index artifact: where it was created and the file written
there. -/
structure IndexArtifact where
  path : String
  file : List FileToken
  deriving DecidableEq, Repr

/-- Embedding of `do_load_shuffled_vectors` (`src/python/src/indices.rs`
lines 271-305).  Steps, in source order:
1. resolve `dir_path` and open the named shuffle files there
   (`load_partitioned_shuffles`);
2. switch to the dataset's own object store and create the output at
   `indices_dir()/"shuffled_vectors.idx"`;
3. line 286 calls the async `write_pq_partitions(&mut writer, &mut
   ivf_model, Some(streams), None)` WITHOUT `.await`: Rust futures are
   lazy, so the future is dropped unexecuted and neither the writer nor
   `ivf_model` changes — embedded here as a dropped thunk;
4. build the metadata from `ivf_model` as it stands, convert it, write the
   protobuf block (getting its position) and the trailer
   `write_magics(pos, 0, 1, MAGIC)`, then shut the writer down.
The artifact is the effect at the destination; the Rust function returns
unit. -/
def do_load_shuffled_vectors (fs : FS) (filenames : List String)
    (dir_path : String) (dataset : Dataset) (column : String)
    (ivf_model : IvfModel) (pq_model : ProductQuantizer) :
    Except LanceError IndexArtifact :=
  match load_partitioned_shuffles fs dir_path filenames with
  | .error e => .error e
  | .ok streams =>
    let path := childPath dataset.indicesDir "shuffled_vectors.idx"
    let writer : IdxWriter := []
    let _droppedFuture := fun _ : Unit =>
      write_pq_partitions writer ivf_model (some streams) none
    let metadata := IvfPQIndexMetadata.new "ivf_pq_index" column
      ivf_model.dimension dataset.version pq_model.distance_type ivf_model
      pq_model []
    match IndexMessage.tryFrom metadata with
    | .error e => .error e
    | .ok msg =>
      let (writer, pos) := writer.write_protobuf msg
      let writer := writer.write_magics pos 0 1 MAGIC
      .ok ⟨path, writer⟩

/-- The `ProductQuantizer::new` call made by the `load_shuffled_vectors`
pyfunction (`src/python/src/indices.rs` lines 334-340): `num_bits` is the
literal 8. -/
def load_shuffled_vectors_pq (num_subvectors pq_dimension : Nat)
    (codebook : List (List ℚ)) (dt : DistanceType) : ProductQuantizer :=
  ProductQuantizer.new num_subvectors 8 pq_dimension codebook dt

/-- Embedding of the `load_shuffled_vectors` pyfunction
(`src/python/src/indices.rs` lines 307-346): wraps the caller-supplied
centroids into an IvfModel with empty offsets/lengths, parses the distance
string with `.unwrap()` (panicking on an unrecognized value), builds the
quantizer with `num_bits = 8`, and runs `do_load_shuffled_vectors`. -/
def load_shuffled_vectors (fs : FS) (filenames : List String)
    (dir_path : String) (dataset : Dataset) (column : String)
    (ivf_centroids : List (List ℚ)) (pq_codebook : List (List ℚ))
    (pq_dimension : Nat) (num_subvectors : Nat) (distance_type : String) :
    PyOutcome IndexArtifact :=
  let ivf_model : IvfModel := ⟨some ivf_centroids, [], []⟩
  match DistanceType.tryFrom distance_type with
  | none => .panicked "called Result::unwrap() on an Err value"
  | some dt =>
    let pq_model := load_shuffled_vectors_pq num_subvectors pq_dimension
      pq_codebook dt
    match do_load_shuffled_vectors fs filenames dir_path dataset column
        ivf_model pq_model with
    | .ok artifact => .ok artifact
    | .error e => .raised e

/-! Helper lemmas -/

/-- Characterisation of a successful run of `do_load_shuffled_vectors`:
the inputs must be readable under `dir_path`, and the artifact is the fixed
output path together with a file holding only the metadata block (at
position 0, since the unawaited merge wrote nothing) and the trailer. -/
lemma do_load_shuffled_vectors_ok {fs : FS} {filenames : List String}
    {dir_path : String} {ds : Dataset} {column : String} {ivf : IvfModel}
    {pq : ProductQuantizer} {art : IndexArtifact} :
    do_load_shuffled_vectors fs filenames dir_path ds column ivf pq = .ok art ↔
      (∃ streams, load_partitioned_shuffles fs dir_path filenames = .ok streams) ∧
      art = ⟨childPath ds.indicesDir "shuffled_vectors.idx",
             [.metadataBlock (IvfPQIndexMetadata.new "ivf_pq_index" column
                ivf.dimension ds.version pq.distance_type ivf pq []),
              .trailer 0 0 1 MAGIC]⟩ := by
  unfold do_load_shuffled_vectors
  cases h : load_partitioned_shuffles fs dir_path filenames with
  | error e => simp [h]
  | ok streams =>
    simp [h, IndexMessage.tryFrom, IdxWriter.write_protobuf, IdxWriter.write_magics,
      eq_comm]

/-! Claims -/

/-- C6: Every ProductQuantizer constructed or trained by the entry points
(`train_pq_model` via `PQBuildParams`, `transform_vectors`,
`load_shuffled_vectors`) has `num_bits = 8`, so its codebook holds exactly
`2^8 = 256` sub-centroids per subvector slot, for all caller-supplied
arguments. -/
theorem c6_num_bits_always_eight (ds : Dataset) (dim dimL M mi sr : Nat)
    (cb cbL : List (List ℚ)) (dt dtL : DistanceType) (ivf : Option IvfModel) :
    (transform_vectors_pq M dim cb dt).num_bits = 8 ∧
    (transform_vectors_pq M dim cb dt).subCentroidsPerSlot = 256 ∧
    (load_shuffled_vectors_pq M dimL cbL dtL).num_bits = 8 ∧
    (load_shuffled_vectors_pq M dimL cbL dtL).subCentroidsPerSlot = 256 ∧
    (trainPqParams M mi sr).num_bits = 8 ∧
    (build_pq_model ds dim dt (trainPqParams M mi sr) ivf).map
        (fun pq => pq.num_bits) =
      (build_pq_model ds dim dt (trainPqParams M mi sr) ivf).map (fun _ => 8) ∧
    (build_pq_model ds dim dt (trainPqParams M mi sr) ivf).map
        (fun pq => pq.subCentroidsPerSlot) =
      (build_pq_model ds dim dt (trainPqParams M mi sr) ivf).map (fun _ => 256) := by
  refine ⟨rfl, rfl, rfl, rfl, rfl, ?_, ?_⟩ <;>
    · unfold build_pq_model
      split
      · rfl
      · rfl

/-- C2 (counterexample): passing the unrecognized distance type "bogus" to
`train_ivf_model` does not fail with a typed ConfigError result — the call
panics (the binding calls `DistanceType::try_from(..).unwrap()`), which
pyo3 surfaces as a crash (`PanicException`), refuting the claim as
stated. -/
theorem c2_counterexample :
    train_ivf_model ⟨[[1]], 0, "d"⟩ 1 1 "bogus" 1 1 =
      PyOutcome.panicked "called Result::unwrap() on an Err value" ∧
    ¬ ∃ e : LanceError, train_ivf_model ⟨[[1]], 0, "d"⟩ 1 1 "bogus" 1 1 =
      PyOutcome.raised e := by
  constructor
  · rfl
  · rintro ⟨e, h⟩
    rw [show train_ivf_model ⟨[[1]], 0, "d"⟩ 1 1 "bogus" 1 1 =
        PyOutcome.panicked "called Result::unwrap() on an Err value" from rfl] at h
    cases h

/-- C2 (amended): for every entry point that accepts a distance_type string
(`train_ivf_model`, `train_pq_model`, `transform_vectors`,
`load_shuffled_vectors`), an unrecognized value makes
`DistanceType::try_from` fail, and the entry point `.unwrap()`s that
result, so the call panics (a crash surfaced as a `PanicException`) rather
than returning a typed ConfigError, for every dataset and every other
argument. -/
theorem c2_amended (fs : FS) (ds : Dataset) (dim P M pqd sr mi : Nat)
    (cents cb : List (List ℚ)) (filenames : List String)
    (dir dst column s : String)
    (hs : DistanceType.tryFrom s = none) :
    train_ivf_model ds dim P s sr mi =
      .panicked "called Result::unwrap() on an Err value" ∧
    train_pq_model ds dim M s sr mi cents =
      .panicked "called Result::unwrap() on an Err value" ∧
    transform_vectors fs ds M dim s cents cb dst =
      .panicked "called Result::unwrap() on an Err value" ∧
    load_shuffled_vectors fs filenames dir ds column cents cb pqd M s =
      .panicked "called Result::unwrap() on an Err value" := by
  refine ⟨?_, ?_, ?_, ?_⟩
  · simp [train_ivf_model, hs]
  · simp [train_pq_model, do_train_pq_model, hs]
  · simp [transform_vectors, hs]
  · simp [load_shuffled_vectors, hs]

/-- C2 (witness for the amended claim): at the concrete unrecognized string
"bogus", all four entry points panic. -/
theorem c2_amended_witness :
    DistanceType.tryFrom "bogus" = none ∧
    (train_ivf_model ⟨[[1]], 0, "d"⟩ 1 1 "bogus" 1 1 =
      .panicked "called Result::unwrap() on an Err value" ∧
    train_pq_model ⟨[[1]], 0, "d"⟩ 1 1 "bogus" 1 1 [[1]] =
      .panicked "called Result::unwrap() on an Err value" ∧
    transform_vectors [] ⟨[[1]], 0, "d"⟩ 1 1 "bogus" [[1]] [[1]] "dst" =
      .panicked "called Result::unwrap() on an Err value" ∧
    load_shuffled_vectors [] ["f"] "wd" ⟨[[1]], 0, "d"⟩ "col" [[1]] [[1]] 1 1 "bogus" =
      .panicked "called Result::unwrap() on an Err value") :=
  ⟨rfl, c2_amended [] ⟨[[1]], 0, "d"⟩ 1 1 1 1 1 1 [[1]] [[1]] ["f"] "wd" "dst" "col"
    "bogus" rfl⟩

/-- C10: for every invocation of `load_shuffled_vectors` that succeeds, the
index artifact is created at the fixed path
`<dataset indices directory>/shuffled_vectors.idx` derived from the
dataset's own object store, and the caller-supplied `dir_path` was used to
locate and open the input shuffle files (the output path does not mention
it). -/
theorem c10_output_path (fs : FS) (filenames : List String)
    (dir_path : String) (ds : Dataset) (column : String) (ivf : IvfModel)
    (pq : ProductQuantizer) (art : IndexArtifact)
    (hok : do_load_shuffled_vectors fs filenames dir_path ds column ivf pq =
      .ok art) :
    art.path = childPath ds.indicesDir "shuffled_vectors.idx" ∧
    (∃ streams, load_partitioned_shuffles fs dir_path filenames = .ok streams) := by
  obtain ⟨hstreams, hart⟩ := do_load_shuffled_vectors_ok.mp hok
  exact ⟨by rw [hart], hstreams⟩

/-- C10 (witness): a concrete successful invocation, artifact at
`data/_indices/shuffled_vectors.idx` while the inputs were read under
`wd`. -/
theorem c10_output_path_witness :
    (do_load_shuffled_vectors [("wd/f0", [])] ["f0"] "wd"
        ⟨[], 3, "data/_indices"⟩ "v" ⟨some [[1]], [], []⟩ ⟨1, 8, 1, [], .l2⟩ =
      .ok ⟨childPath "data/_indices" "shuffled_vectors.idx",
           [.metadataBlock ⟨"ivf_pq_index", "v", 1, 3, .l2, ⟨some [[1]], [], []⟩,
              ⟨1, 8, 1, [], .l2⟩, []⟩, .trailer 0 0 1 MAGIC]⟩) ∧
    ((⟨childPath "data/_indices" "shuffled_vectors.idx",
        [.metadataBlock ⟨"ivf_pq_index", "v", 1, 3, .l2, ⟨some [[1]], [], []⟩,
           ⟨1, 8, 1, [], .l2⟩, []⟩, .trailer 0 0 1 MAGIC]⟩ : IndexArtifact).path =
        childPath "data/_indices" "shuffled_vectors.idx" ∧
     ∃ streams, load_partitioned_shuffles [("wd/f0", [])] "wd" ["f0"] =
        .ok streams) :=
  ⟨by with_unfolding_all rfl,
   c10_output_path [("wd/f0", [])] ["f0"] "wd" ⟨[], 3, "data/_indices"⟩ "v"
     ⟨some [[1]], [], []⟩ ⟨1, 8, 1, [], .l2⟩ _ (by with_unfolding_all rfl)⟩

/-- C3: after every successful run of the write-index stage, the file ends
with the fixed-format trailer recording the position at which the metadata
block was written, the version/flavor pair (0, 1), and the magic constant;
a reader that looks only at the trailer and then seeks to the recorded
position recovers the metadata block without scanning the file. -/
theorem c3_trailer_seek (fs : FS) (filenames : List String)
    (dir_path : String) (ds : Dataset) (column : String) (ivf : IvfModel)
    (pq : ProductQuantizer) (art : IndexArtifact)
    (hok : do_load_shuffled_vectors fs filenames dir_path ds column ivf pq =
      .ok art) :
    ∃ pos md,
      readTrailer art.file = some (pos, 0, 1, MAGIC) ∧
      art.file = art.file.take pos ++
        [FileToken.metadataBlock md, FileToken.trailer pos 0 1 MAGIC] ∧
      readMetadata art.file = some md := by
  obtain ⟨_, hart⟩ := do_load_shuffled_vectors_ok.mp hok
  subst hart
  exact ⟨0, _, rfl, rfl, rfl⟩

/-- C3 (witness): a concrete successful run whose trailer decodes to
position 0, versions (0, 1) and the magic, and whose metadata parses by
seeking there. -/
theorem c3_trailer_seek_witness :
    (do_load_shuffled_vectors [("wd/g0", [⟨1, 0, [5]⟩])] ["g0"] "wd"
        ⟨[], 9, "idx"⟩ "c" ⟨some [[2]], [], []⟩ ⟨1, 8, 1, [[0]], .dot⟩ =
      .ok ⟨childPath "idx" "shuffled_vectors.idx",
           [.metadataBlock ⟨"ivf_pq_index", "c", 1, 9, .dot, ⟨some [[2]], [], []⟩,
              ⟨1, 8, 1, [[0]], .dot⟩, []⟩, .trailer 0 0 1 MAGIC]⟩) ∧
    (∃ pos md,
      readTrailer (⟨childPath "idx" "shuffled_vectors.idx",
           [.metadataBlock ⟨"ivf_pq_index", "c", 1, 9, .dot, ⟨some [[2]], [], []⟩,
              ⟨1, 8, 1, [[0]], .dot⟩, []⟩,
            .trailer 0 0 1 MAGIC]⟩ : IndexArtifact).file = some (pos, 0, 1, MAGIC) ∧
      (⟨childPath "idx" "shuffled_vectors.idx",
           [.metadataBlock ⟨"ivf_pq_index", "c", 1, 9, .dot, ⟨some [[2]], [], []⟩,
              ⟨1, 8, 1, [[0]], .dot⟩, []⟩,
            .trailer 0 0 1 MAGIC]⟩ : IndexArtifact).file =
        (⟨childPath "idx" "shuffled_vectors.idx",
           [.metadataBlock ⟨"ivf_pq_index", "c", 1, 9, .dot, ⟨some [[2]], [], []⟩,
              ⟨1, 8, 1, [[0]], .dot⟩, []⟩,
            .trailer 0 0 1 MAGIC]⟩ : IndexArtifact).file.take pos ++
        [FileToken.metadataBlock md, FileToken.trailer pos 0 1 MAGIC] ∧
      readMetadata (⟨childPath "idx" "shuffled_vectors.idx",
           [.metadataBlock ⟨"ivf_pq_index", "c", 1, 9, .dot, ⟨some [[2]], [], []⟩,
              ⟨1, 8, 1, [[0]], .dot⟩, []⟩,
            .trailer 0 0 1 MAGIC]⟩ : IndexArtifact).file = some md) :=
  ⟨by with_unfolding_all rfl,
   c3_trailer_seek [("wd/g0", [⟨1, 0, [5]⟩])] ["g0"] "wd" ⟨[], 9, "idx"⟩ "c"
     ⟨some [[2]], [], []⟩ ⟨1, 8, 1, [[0]], .dot⟩ _ (by with_unfolding_all rfl)⟩

/-- C4: every successful run serializes a metadata block containing exactly
the index name/kind tag "ivf_pq_index", the target column, the vector
dimension, the source dataset's version, the distance type, the IvfModel
and the ProductQuantizer used for the build (plus the empty transform
list passed as the final constructor argument). -/
theorem c4_metadata_contents (fs : FS) (filenames : List String)
    (dir_path : String) (ds : Dataset) (column : String) (ivf : IvfModel)
    (pq : ProductQuantizer) (art : IndexArtifact)
    (hok : do_load_shuffled_vectors fs filenames dir_path ds column ivf pq =
      .ok art) :
    ∃ md, readMetadata art.file = some md ∧
      md.name = "ivf_pq_index" ∧ md.column = column ∧
      md.dimension = ivf.dimension ∧ md.dataset_version = ds.version ∧
      md.distance_type = pq.distance_type ∧ md.ivf = ivf ∧ md.pq = pq ∧
      md.transforms = [] := by
  obtain ⟨_, hart⟩ := do_load_shuffled_vectors_ok.mp hok
  subst hart
  exact ⟨_, rfl, rfl, rfl, rfl, rfl, rfl, rfl, rfl, rfl⟩

/-- C4 (witness): the metadata of a concrete successful run carries exactly
the build's name tag, column, dimension, dataset version, distance type,
IvfModel and ProductQuantizer. -/
theorem c4_metadata_contents_witness :
    (do_load_shuffled_vectors [("p/h0", [])] ["h0"] "p" ⟨[], 11, "root"⟩ "col"
        ⟨some [[3, 4]], [], []⟩ ⟨2, 8, 2, [[1]], .cosine⟩ =
      .ok ⟨childPath "root" "shuffled_vectors.idx",
           [.metadataBlock ⟨"ivf_pq_index", "col", 2, 11, .cosine,
              ⟨some [[3, 4]], [], []⟩, ⟨2, 8, 2, [[1]], .cosine⟩, []⟩,
            .trailer 0 0 1 MAGIC]⟩) ∧
    (∃ md, readMetadata (⟨childPath "root" "shuffled_vectors.idx",
           [.metadataBlock ⟨"ivf_pq_index", "col", 2, 11, .cosine,
              ⟨some [[3, 4]], [], []⟩, ⟨2, 8, 2, [[1]], .cosine⟩, []⟩,
            .trailer 0 0 1 MAGIC]⟩ : IndexArtifact).file = some md ∧
      md.name = "ivf_pq_index" ∧ md.column = "col" ∧
      md.dimension = IvfModel.dimension ⟨some [[3, 4]], [], []⟩ ∧
      md.dataset_version = (⟨[], 11, "root"⟩ : Dataset).version ∧
      md.distance_type = (⟨2, 8, 2, [[1]], .cosine⟩ : ProductQuantizer).distance_type ∧
      md.ivf = ⟨some [[3, 4]], [], []⟩ ∧
      md.pq = ⟨2, 8, 2, [[1]], .cosine⟩ ∧
      md.transforms = []) :=
  ⟨by with_unfolding_all rfl,
   c4_metadata_contents [("p/h0", [])] ["h0"] "p" ⟨[], 11, "root"⟩ "col"
     ⟨some [[3, 4]], [], []⟩ ⟨2, 8, 2, [[1]], .cosine⟩ _
     (by with_unfolding_all rfl)⟩

/-- C8 (counterexample): a successful concrete invocation of
`load_shuffled_vectors` on a non-empty partition stream.  The caller hands
in raw centroid data (not an IvfModel instance), the entry point
constructs the IvfModel internally and moves it into the serialized
metadata, and the only IvfModel in the call's outcome still has
`offsets = []` and `lengths = []` — nothing was filled in, and no mutated
model is handed back to the caller, refuting the claim that the
caller-passed IvfModel is mutated in place as a visible output channel. -/
theorem c8_counterexample :
    load_shuffled_vectors [("w/s0", [⟨5, 0, [9]⟩])] ["s0"] "w"
        ⟨[], 4, "db/_indices"⟩ "emb" [[2]] [[3]] 1 1 "l2" =
      .ok ⟨childPath "db/_indices" "shuffled_vectors.idx",
           [.metadataBlock ⟨"ivf_pq_index", "emb", 1, 4, .l2,
              ⟨some [[2]], [], []⟩, ⟨1, 8, 1, [[3]], .l2⟩, []⟩,
            .trailer 0 0 1 MAGIC]⟩ ∧
    (readMetadata [.metadataBlock (⟨"ivf_pq_index", "emb", 1, 4, .l2,
        ⟨some [[2]], [], []⟩, ⟨1, 8, 1, [[3]], .l2⟩, []⟩ : IvfPQIndexMetadata),
        .trailer 0 0 1 MAGIC]).map (fun md => (md.ivf.offsets, md.ivf.lengths)) =
      some ([], []) := by
  constructor
  · with_unfolding_all rfl
  · with_unfolding_all rfl

/-- C8 (amended): `load_shuffled_vectors` receives raw centroids, constructs
the IvfModel internally with empty offsets/lengths, and consumes it — the
model recorded in the artifact's metadata is exactly
`{centroids = supplied, offsets = [], lengths = []}`, and no IvfModel is
exposed back to the caller (the only caller-visible output is the artifact
at the destination). -/
theorem c8_amended (fs : FS) (filenames : List String) (dir_path : String)
    (ds : Dataset) (column : String) (cents cb : List (List ℚ))
    (pqd M : Nat) (s : String) (art : IndexArtifact)
    (hok : load_shuffled_vectors fs filenames dir_path ds column cents cb
      pqd M s = .ok art) :
    ∃ md, readMetadata art.file = some md ∧
      md.ivf = ⟨some cents, [], []⟩ ∧
      md.ivf.offsets = [] ∧ md.ivf.lengths = [] := by
  cases hdt : DistanceType.tryFrom s with
  | none => simp [load_shuffled_vectors, hdt] at hok
  | some dt =>
    simp only [load_shuffled_vectors, hdt] at hok
    cases hdo : do_load_shuffled_vectors fs filenames dir_path ds column
        ⟨some cents, [], []⟩ (load_shuffled_vectors_pq M pqd cb dt) with
    | error e => simp [hdo] at hok
    | ok a =>
      simp only [hdo, PyOutcome.ok.injEq] at hok
      subst hok
      obtain ⟨_, hart⟩ := do_load_shuffled_vectors_ok.mp hdo
      subst hart
      exact ⟨_, rfl, rfl, rfl, rfl⟩

/-- C8 (witness for the amended claim): a concrete successful invocation
whose artifact metadata carries the internally built IvfModel with the
supplied centroids and empty offsets/lengths. -/
theorem c8_amended_witness :
    (load_shuffled_vectors [("q/t0", [⟨8, 0, [7]⟩])] ["t0"] "q"
        ⟨[], 6, "lib/_indices"⟩ "x" [[5]] [[6]] 1 1 "dot" =
      .ok ⟨childPath "lib/_indices" "shuffled_vectors.idx",
           [.metadataBlock ⟨"ivf_pq_index", "x", 1, 6, .dot,
              ⟨some [[5]], [], []⟩, ⟨1, 8, 1, [[6]], .dot⟩, []⟩,
            .trailer 0 0 1 MAGIC]⟩) ∧
    (∃ md, readMetadata (⟨childPath "lib/_indices" "shuffled_vectors.idx",
           [.metadataBlock ⟨"ivf_pq_index", "x", 1, 6, .dot,
              ⟨some [[5]], [], []⟩, ⟨1, 8, 1, [[6]], .dot⟩, []⟩,
            .trailer 0 0 1 MAGIC]⟩ : IndexArtifact).file = some md ∧
      md.ivf = ⟨some [[5]], [], []⟩ ∧
      md.ivf.offsets = [] ∧ md.ivf.lengths = []) :=
  ⟨by with_unfolding_all rfl,
   c8_amended [("q/t0", [⟨8, 0, [7]⟩])] ["t0"] "q" ⟨[], 6, "lib/_indices"⟩ "x"
     [[5]] [[6]] 1 1 "dot" _ (by with_unfolding_all rfl)⟩

/-- C1: evaluation of the write-index stage at a concrete failing input.
The call to the async `write_pq_partitions` on line 286 of the bindings is
not awaited, so the merge never runs: the run succeeds, yet the file holds
no partition codes (the metadata block sits at position 0) and the
IvfModel serialized into the metadata still has `offsets = []` and
`lengths = []` — in particular `lengths.length ≠ P = 1` at serialization
time, contradicting the claim.  The last conjunct shows that executing the
dropped future's body would have produced one (offset, length) entry per
partition. -/
theorem c1_unawaited_merge_leaves_model_empty :
    do_load_shuffled_vectors [("work/p0", [⟨0, 0, [1, 2]⟩])] ["p0"] "work"
        ⟨[], 7, "ds/_indices"⟩ "vec" ⟨some [[1, 1]], [], []⟩ ⟨2, 8, 2, [], .l2⟩ =
      .ok ⟨childPath "ds/_indices" "shuffled_vectors.idx",
           [.metadataBlock ⟨"ivf_pq_index", "vec", 2, 7, .l2,
              ⟨some [[1, 1]], [], []⟩, ⟨2, 8, 2, [], .l2⟩, []⟩,
            .trailer 0 0 1 MAGIC]⟩ ∧
    (⟨"ivf_pq_index", "vec", 2, 7, .l2, ⟨some [[1, 1]], [], []⟩,
       ⟨2, 8, 2, [], .l2⟩, []⟩ : IvfPQIndexMetadata).ivf.offsets = [] ∧
    (⟨"ivf_pq_index", "vec", 2, 7, .l2, ⟨some [[1, 1]], [], []⟩,
       ⟨2, 8, 2, [], .l2⟩, []⟩ : IvfPQIndexMetadata).ivf.lengths.length ≠ 1 ∧
    (write_pq_partitions [] ⟨some [[1, 1]], [], []⟩
        (some [[⟨0, 0, [1, 2]⟩]]) none).2.offsets = [0] ∧
    (write_pq_partitions [] ⟨some [[1, 1]], [], []⟩
        (some [[⟨0, 0, [1, 2]⟩]]) none).2.lengths = [1] := by
  refine ⟨by with_unfolding_all rfl, rfl, by decide, ?_, ?_⟩
  · with_unfolding_all rfl
  · with_unfolding_all rfl

/-! Shape invariants of the modelled k-means -/

lemma length_vecAdd (a b : List ℚ) : (vecAdd a b).length = min a.length b.length := by
  simp [vecAdd]

lemma length_foldl_vecAdd (D : Nat) (vs : List (List ℚ)) (acc : List ℚ)
    (hacc : acc.length = D) (h : ∀ v ∈ vs, v.length = D) :
    (vs.foldl vecAdd acc).length = D := by
  induction vs generalizing acc with
  | nil => simpa using hacc
  | cons v vs ih =>
    refine ih (vecAdd acc v) ?_ (fun u hu => h u (by simp [hu]))
    rw [length_vecAdd, hacc, h v (by simp)]
    simp

lemma length_centroidMean (D : Nat) (vs : List (List ℚ))
    (h : ∀ v ∈ vs, v.length = D) : (centroidMean D vs).length = D := by
  unfold centroidMean
  rw [List.length_map]
  exact length_foldl_vecAdd D vs (vecZero D) (by simp [vecZero]) h

lemma length_getD_of_dims {D : Nat} {cs : List (List ℚ)} (i : Nat)
    (h : ∀ c ∈ cs, c.length = D) : (cs.getD i (vecZero D)).length = D := by
  by_cases hi : i < cs.length
  · rw [List.getD_eq_getElem cs (vecZero D) hi]
    exact h _ (List.getElem_mem hi)
  · rw [List.getD_eq_default cs (vecZero D) (by omega)]
    simp [vecZero]

lemma lloydStep_length (dt : DistanceType) (D : Nat)
    (points cents : List (List ℚ)) :
    (lloydStep dt D points cents).length = cents.length := by
  simp [lloydStep]

lemma lloydStep_dims (dt : DistanceType) (D : Nat) (points cents : List (List ℚ))
    (hp : ∀ p ∈ points, p.length = D) (hc : ∀ c ∈ cents, c.length = D) :
    ∀ c ∈ lloydStep dt D points cents, c.length = D := by
  intro c hcmem
  simp only [lloydStep, List.mem_map, List.mem_range] at hcmem
  obtain ⟨i, _, hceq⟩ := hcmem
  subst hceq
  split
  · exact length_getD_of_dims i hc
  · exact length_centroidMean D _ (fun v hv => hp v (List.mem_of_mem_filter hv))

lemma kmeansIter_length (dt : DistanceType) (D : Nat) (points : List (List ℚ))
    (n : Nat) (cents : List (List ℚ)) :
    (kmeansIter dt D points n cents).length = cents.length := by
  induction n generalizing cents with
  | zero => rfl
  | succ n ih =>
    rw [kmeansIter]
    split
    · rfl
    · rw [ih, lloydStep_length]

lemma kmeansIter_dims (dt : DistanceType) (D : Nat) (points : List (List ℚ))
    (n : Nat) :
    ∀ cents, (∀ c ∈ cents, c.length = D) → (∀ p ∈ points, p.length = D) →
      ∀ c ∈ kmeansIter dt D points n cents, c.length = D := by
  induction n with
  | zero => intro cents hc _; exact hc
  | succ n ih =>
    intro cents hc hp
    rw [kmeansIter]
    split
    · exact hc
    · exact ih _ (lloydStep_dims dt D points cents hp hc) hp

/-- Characterisation of a successful IVF training run: the model is the
k-means output with empty offsets/lengths, and the centroids have exactly
`num_partitions` entries, each of the declared dimension. -/
lemma build_ivf_model_ok {ds : Dataset} {dimension : Nat} {dt : DistanceType}
    {params : IvfBuildParams} {m : IvfModel}
    (h : build_ivf_model ds dimension dt params = .ok m) :
    ∃ cents, m = ⟨some cents, [], []⟩ ∧
      cents.length = params.num_partitions ∧
      ∀ c ∈ cents, c.length = dimension := by
  simp only [build_ivf_model] at h
  split at h
  · cases h
  next hdim =>
    split at h
    · cases h
    next hlen =>
      split at h
      · cases h
      next hempty =>
        have hrows : ∀ r ∈ ds.rows, r.length = dimension := by
          intro r hr
          by_contra hne
          exact hdim (List.any_eq_true.mpr ⟨r, hr, by simpa using hne⟩)
        have hsample : ∀ p ∈ ds.rows.take (params.sample_rate * params.num_partitions),
            p.length = dimension :=
          fun p hp => hrows p (List.take_subset _ _ hp)
        injection h with h
        refine ⟨_, h.symm, ?_, ?_⟩
        · rw [kmeansIter_length, List.length_take]
          omega
        · exact kmeansIter_dims dt dimension _ params.max_iters _
            (fun c hc => hsample c (List.take_subset _ _ hc)) hsample

/-- C5: whenever `train_ivf_model` succeeds, it returns exactly
`num_partitions` centroid vectors, each of the declared dimension (the
invalid inputs named in the claim — zero partitions, zero sample rate,
unrecognized metric, dimension mismatch — can never reach a success with a
different shape). -/
theorem c5_train_ivf_model_shape (ds : Dataset)
    (dimension num_partitions : Nat) (s : String)
    (sample_rate max_iters : Nat) (cents : List (List ℚ))
    (hok : train_ivf_model ds dimension num_partitions s sample_rate
      max_iters = .ok cents) :
    cents.length = num_partitions ∧ ∀ c ∈ cents, c.length = dimension := by
  cases hdt : DistanceType.tryFrom s with
  | none => simp [train_ivf_model, hdt] at hok
  | some dt =>
    simp only [train_ivf_model, hdt] at hok
    cases hb : build_ivf_model ds dimension dt
        ⟨max_iters, sample_rate, num_partitions⟩ with
    | error e => simp [hb] at hok
    | ok m =>
      simp only [hb] at hok
      obtain ⟨cs, hm, hlen, hdims⟩ := build_ivf_model_ok hb
      subst hm
      simp only [PyOutcome.ok.injEq] at hok
      subst hok
      exact ⟨hlen, hdims⟩

/-- C5 (witness): a concrete successful training run with two partitions in
dimension one returns two centroids of dimension one. -/
theorem c5_train_ivf_model_shape_witness :
    (train_ivf_model ⟨[[0], [4]], 0, "d"⟩ 1 2 "l2" 1 1 = .ok [[0], [4]]) ∧
    ([[0], [4]] : List (List ℚ)).length = 2 ∧
    ∀ c ∈ ([[0], [4]] : List (List ℚ)), c.length = 1 :=
  ⟨by with_unfolding_all rfl,
   c5_train_ivf_model_shape ⟨[[0], [4]], 0, "d"⟩ 1 2 "l2" 1 1 [[0], [4]]
     (by with_unfolding_all rfl)⟩

/-- C7: PQ training operates on residuals exactly when an IvfModel is
supplied and on raw vectors when it is absent; and the `train_pq_model`
entry point always wraps the supplied centroids into an IvfModel and
passes `Some(&ivf_model)` to `build_pq_model`, so every invocation trains
on residuals. -/
theorem c7_residual_training (ds : Dataset)
    (dimension M sample_rate max_iters : Nat) (s : String)
    (cents rows : List (List ℚ)) (dt : DistanceType)
    (hdt : DistanceType.tryFrom s = some dt) :
    train_pq_model ds dimension M s sample_rate max_iters cents =
      (match build_pq_model ds dimension dt
          (trainPqParams M max_iters sample_rate)
          (some ⟨some cents, [], []⟩) with
       | .ok pq => .ok pq.codebook
       | .error e => .raised e) ∧
    pqTrainingVectors dt rows (some ⟨some cents, [], []⟩) =
      rows.map (residualOf dt cents) ∧
    pqTrainingVectors dt rows none = rows := by
  refine ⟨?_, ?_, rfl⟩
  · simp only [train_pq_model, do_train_pq_model, hdt]
    cases build_pq_model ds dimension dt (trainPqParams M max_iters sample_rate)
        (some ⟨some cents, [], []⟩) <;> rfl
  · simp [pqTrainingVectors]

/-- C7 (witness): at a concrete parseable metric, the entry point's result
is the residual-trained build, and the training-vector selector maps a
supplied model to residuals and no model to the raw rows. -/
theorem c7_residual_training_witness :
    DistanceType.tryFrom "l2" = some .l2 ∧
    (train_pq_model ⟨[[1, 2]], 0, "d"⟩ 2 2 "l2" 1 0 [[0, 0]] =
      (match build_pq_model ⟨[[1, 2]], 0, "d"⟩ 2 .l2 (trainPqParams 2 0 1)
          (some ⟨some [[0, 0]], [], []⟩) with
       | .ok pq => .ok pq.codebook
       | .error e => .raised e) ∧
    pqTrainingVectors .l2 [[3, 4]] (some ⟨some [[0, 0]], [], []⟩) =
      [[3, 4]].map (residualOf .l2 [[0, 0]]) ∧
    pqTrainingVectors .l2 [[3, 4]] none = [[3, 4]]) :=
  ⟨rfl, c7_residual_training ⟨[[1, 2]], 0, "d"⟩ 2 2 1 0 "l2" [[0, 0]] [[3, 4]]
    .l2 rfl⟩

/-! The shuffle is a partition of the input records -/

lemma bucket_multiset_sum (P : Nat) (l : List TransformedRecord)
    (h : ∀ r ∈ l, r.partition_id < P) :
    (∑ k ∈ Finset.range P,
      (↑(partitionBucket l k) : Multiset TransformedRecord)) = ↑l := by
  induction l with
  | nil => simp [partitionBucket]
  | cons r l ih =>
    have hr : r.partition_id < P := h r (by simp)
    have hl : ∀ x ∈ l, x.partition_id < P := fun x hx => h x (by simp [hx])
    calc (∑ k ∈ Finset.range P,
            (↑(partitionBucket (r :: l) k) : Multiset TransformedRecord))
        = ∑ k ∈ Finset.range P,
            ((if r.partition_id = k then {r} else 0) +
              (↑(partitionBucket l k) : Multiset TransformedRecord)) := by
          refine Finset.sum_congr rfl fun k _ => ?_
          by_cases hk : r.partition_id = k
          · simp [partitionBucket, List.filter_cons, hk]
          · simp [partitionBucket, List.filter_cons, hk]
      _ = (∑ k ∈ Finset.range P,
            if r.partition_id = k then ({r} : Multiset TransformedRecord) else 0) +
          ∑ k ∈ Finset.range P,
            (↑(partitionBucket l k) : Multiset TransformedRecord) :=
          Finset.sum_add_distrib
      _ = ↑(r :: l) := by
          rw [ih hl, Finset.sum_ite_eq]
          simp [Finset.mem_range.mpr hr]

/-- C9: for every successful shuffle, the produced per-partition file list
is returned to the caller; the store gains exactly one file per partition
id holding exactly the input records of that partition; the multiset union
of records across the produced partition files equals the multiset union
of records across all input files; and every record in partition-file `k`
has `partition_id = k`. -/
theorem c9_shuffle_correctness (fs : FS) (unsorted : List String)
    (dir root : String) (cents : List (List ℚ)) (names : List String)
    (fs' : FS) (inputs : List (List TransformedRecord)) (k : Nat)
    (r : TransformedRecord)
    (hread : readInputFiles fs dir unsorted = .ok inputs)
    (hok : shuffle_vectors fs unsorted dir cents root = .ok (names, fs'))
    (hpid : ∀ x ∈ inputs.flatten, x.partition_id < cents.length) :
    names = (List.range cents.length).map (partitionFileName root) ∧
    fs' = ((List.range cents.length).map fun j =>
        (childPath dir (partitionFileName root j),
         partitionBucket inputs.flatten j)) ++ fs ∧
    (∑ j ∈ Finset.range cents.length,
        (↑(partitionBucket inputs.flatten j) : Multiset TransformedRecord)) =
      ↑inputs.flatten ∧
    (r ∈ partitionBucket inputs.flatten k → r.partition_id = k) := by
  simp only [shuffle_vectors, hread, Except.ok.injEq, Prod.mk.injEq] at hok
  obtain ⟨h1, h2⟩ := hok
  refine ⟨h1.symm, h2.symm, bucket_multiset_sum _ _ hpid, fun hr => ?_⟩
  have := (List.mem_filter.mp hr).2
  simpa using this

/-- C9 (witness): a concrete shuffle of two unsorted files over two
partitions: the two produced files, their names, the multiset identity and
the partition-id property, all at explicit records. -/
theorem c9_shuffle_correctness_witness :
    (readInputFiles
        [("wd/a", [⟨0, 0, [1]⟩, ⟨1, 1, [2]⟩]), ("wd/b", [⟨2, 1, [3]⟩])] "wd"
        ["a", "b"] = .ok [[⟨0, 0, [1]⟩, ⟨1, 1, [2]⟩], [⟨2, 1, [3]⟩]]) ∧
    (shuffle_vectors
        [("wd/a", [⟨0, 0, [1]⟩, ⟨1, 1, [2]⟩]), ("wd/b", [⟨2, 1, [3]⟩])]
        ["a", "b"] "wd" [[0], [1]] "out" =
      .ok (["out_0", "out_1"],
        [("wd/out_0", [⟨0, 0, [1]⟩]), ("wd/out_1", [⟨1, 1, [2]⟩, ⟨2, 1, [3]⟩]),
         ("wd/a", [⟨0, 0, [1]⟩, ⟨1, 1, [2]⟩]), ("wd/b", [⟨2, 1, [3]⟩])])) ∧
    (∀ x ∈ ([[⟨0, 0, [1]⟩, ⟨1, 1, [2]⟩],
        [⟨2, 1, [3]⟩]] : List (List TransformedRecord)).flatten,
      x.partition_id < ([[0], [1]] : List (List ℚ)).length) ∧
    ((["out_0", "out_1"] : List String) =
      (List.range ([[0], [1]] : List (List ℚ)).length).map
        (partitionFileName "out") ∧
    ([("wd/out_0", [⟨0, 0, [1]⟩]), ("wd/out_1", [⟨1, 1, [2]⟩, ⟨2, 1, [3]⟩]),
      ("wd/a", [⟨0, 0, [1]⟩, ⟨1, 1, [2]⟩]), ("wd/b", [⟨2, 1, [3]⟩])] : FS) =
      ((List.range ([[0], [1]] : List (List ℚ)).length).map fun j =>
        (childPath "wd" (partitionFileName "out" j),
         partitionBucket ([[⟨0, 0, [1]⟩, ⟨1, 1, [2]⟩],
           [⟨2, 1, [3]⟩]] : List (List TransformedRecord)).flatten j)) ++
        [("wd/a", [⟨0, 0, [1]⟩, ⟨1, 1, [2]⟩]), ("wd/b", [⟨2, 1, [3]⟩])] ∧
    (∑ j ∈ Finset.range ([[0], [1]] : List (List ℚ)).length,
        (↑(partitionBucket ([[⟨0, 0, [1]⟩, ⟨1, 1, [2]⟩],
            [⟨2, 1, [3]⟩]] : List (List TransformedRecord)).flatten j) :
          Multiset TransformedRecord)) =
      ↑([[⟨0, 0, [1]⟩, ⟨1, 1, [2]⟩],
          [⟨2, 1, [3]⟩]] : List (List TransformedRecord)).flatten ∧
    ((⟨2, 1, [3]⟩ : TransformedRecord) ∈
        partitionBucket ([[⟨0, 0, [1]⟩, ⟨1, 1, [2]⟩],
          [⟨2, 1, [3]⟩]] : List (List TransformedRecord)).flatten 1 →
      (⟨2, 1, [3]⟩ : TransformedRecord).partition_id = 1)) :=
  ⟨by with_unfolding_all rfl, by with_unfolding_all rfl, by decide,
   c9_shuffle_correctness
     [("wd/a", [⟨0, 0, [1]⟩, ⟨1, 1, [2]⟩]), ("wd/b", [⟨2, 1, [3]⟩])]
     ["a", "b"] "wd" "out" [[0], [1]] ["out_0", "out_1"]
     [("wd/out_0", [⟨0, 0, [1]⟩]), ("wd/out_1", [⟨1, 1, [2]⟩, ⟨2, 1, [3]⟩]),
      ("wd/a", [⟨0, 0, [1]⟩, ⟨1, 1, [2]⟩]), ("wd/b", [⟨2, 1, [3]⟩])]
     [[⟨0, 0, [1]⟩, ⟨1, 1, [2]⟩], [⟨2, 1, [3]⟩]] 1 ⟨2, 1, [3]⟩
     (by with_unfolding_all rfl) (by with_unfolding_all rfl) (by decide)⟩
